import Mathlib

/-
Verification of the Web Connectivity blocking-classification engine
(`Summarize` and `DetermineBlocking` in package webconnectivity).

The engine is a pure function from a populated evidence record
(`TestKeys`) to a `Summary`.  Optional Go pointer fields (`*string`,
`*bool`) are embedded as `Option`; the ordered rule chain with early
returns becomes nested if/match expressions; the deferred computation of
`out.Blocking` becomes a final rendering step applied to the pair
`(Accessible, BlockingReason)` produced by the rule chain.
-/

namespace WebConnectivity

/-- Modelled from the spec: FailureCode string identifier for a refused
TCP connection (the constant `modelx.FailureConnectionRefused`, whose
definition is outside the provided sources). -/
def failureConnectionRefused : String := "connection_refused"

/-- Modelled from the spec: FailureCode for a reset connection
(`modelx.FailureConnectionReset`). -/
def failureConnectionReset : String := "connection_reset"

/-- Modelled from the spec: FailureCode for DNS NXDOMAIN
(`modelx.FailureDNSNXDOMAINError`). -/
def failureDNSNXDOMAINError : String := "dns_nxdomain_error"

/-- Modelled from the spec: FailureCode for an unexpected EOF
(`modelx.FailureEOFError`). -/
def failureEOFError : String := "eof_error"

/-- Modelled from the spec: FailureCode for a generic timeout
(`modelx.FailureGenericTimeoutError`). -/
def failureGenericTimeoutError : String := "generic_timeout_error"

/-- Modelled from the spec: FailureCode for an invalid TLS hostname
(`modelx.FailureSSLInvalidHostname`). -/
def failureSSLInvalidHostname : String := "ssl_invalid_hostname"

/-- Modelled from the spec: FailureCode for an invalid TLS certificate
(`modelx.FailureSSLInvalidCertificate`). -/
def failureSSLInvalidCertificate : String := "ssl_invalid_certificate"

/-- Modelled from the spec: FailureCode for an unknown TLS authority
(`modelx.FailureSSLUnknownAuthority`). -/
def failureSSLUnknownAuthority : String := "ssl_unknown_authority"

/-- Modelled from the spec: the `DNSConsistent` value of the DNSConsistency
enumeration (its definition is outside the provided sources; only its
distinctness from `DNSInconsistent` matters to the engine). -/
def DNSConsistent : String := "consistent"

/-- Modelled from the spec: the `DNSInconsistent` value of the
DNSConsistency enumeration. -/
def DNSInconsistent : String := "inconsistent"

/-- The request data of one HTTP request entry; the engine only reads the
target URL. -/
structure HTTPRequestData where
  URL : String
deriving DecidableEq, Repr

/-- One entry of the recorded HTTP request chain: the request issued and
the optional failure observed (index 0 is the first request issued). -/
structure RequestEntry where
  Request : HTTPRequestData
  Failure : Option String
deriving DecidableEq, Repr

/-- The control measurement's own HTTP request result; the engine only
reads its optional failure. -/
structure ControlHTTPResult where
  Failure : Option String
deriving DecidableEq, Repr

/-- The nested control response (`tk.Control`). -/
structure ControlResponse where
  HTTPRequest : ControlHTTPResult
deriving DecidableEq, Repr

/-- Modelled from the spec: the evidence record (`TestKeys`), whose struct
declaration is outside the provided sources; the fields are those read by
`Summarize`, each optional Go pointer embedded as `Option`. -/
structure TestKeys where
  ControlFailure : Option String
  DNSExperimentFailure : Option String
  DNSConsistency : Option String
  Control : ControlResponse
  Requests : List RequestEntry
  TCPConnectAttempts : Int
  TCPConnectSuccesses : Int
  StatusCodeMatch : Option Bool
  BodyLengthMatch : Option Bool
  HeadersMatch : Option Bool
  TitleMatch : Option Bool
deriving DecidableEq, Repr

/-- The rendered `blocking` value: JSON null, a boolean, or a reason
string (Go `interface\x7b\x7d` holding nil, bool, or `*string`). -/
inductive BlockingValue where
  | null : BlockingValue
  | flag : Bool → BlockingValue
  | reason : String → BlockingValue
deriving DecidableEq, Repr

/-- The Web Connectivity summary. -/
structure Summary where
  Accessible : Option Bool
  BlockingReason : Option String
  Blocking : BlockingValue
deriving DecidableEq, Repr

/-- The blocking-reason label strings used by `Summarize`. -/
def dns : String := "dns"

/-- The `http-diff` blocking-reason label. -/
def httpDiff : String := "http-diff"

/-- The `http-failure` blocking-reason label. -/
def httpFailure : String := "http-failure"

/-- The `tcp_ip` blocking-reason label. -/
def tcpIP : String := "tcp_ip"

/-- DetermineBlocking returns the value of Summary.Blocking according to
the expectations of OONI data consumers: `false` when Accessible is true,
otherwise the BlockingReason pointer (nil rendering as null). -/
def DetermineBlocking (s : Summary) : BlockingValue :=
  if s.Accessible = some true then BlockingValue.flag false
  else
    match s.BlockingReason with
    | none => BlockingValue.null
    | some r => BlockingValue.reason r

/-- Go's strings.HasPrefix test, embedded structurally over the character
lists of the two strings (first argument is the candidate head). -/
def hasPrefixChars : List Char → List Char → Bool
  | [], _ => true
  | _ :: _, [] => false
  | p :: ps, c :: cs => p == c && hasPrefixChars ps cs

/-- The https scheme test on a URL: strings.HasPrefix(url, "https://"). -/
def urlIsHTTPS (u : String) : Bool := hasPrefixChars "https://".data u.data

/-- The guard of the HTTPS-reachable shortcut: at least one request, the
first has no failure, and its URL has the https scheme. -/
def httpsShortcutTaken (tk : TestKeys) : Bool :=
  match tk.Requests.head? with
  | some r => r.Failure == none && urlIsHTTPS r.Request.URL
  | none => false

/-- The switch on the first request's failure code: the classification
step of the probe-first-request-failed rule, returning the
(Accessible, BlockingReason) pair it assigns. -/
def classifyFirstFailure (f : String) : Option Bool × Option String :=
  if f = failureConnectionRefused then (some false, some tcpIP)
  else if f = failureConnectionReset then (some false, some httpFailure)
  else if f = failureDNSNXDOMAINError then (some false, some dns)
  else if f = failureEOFError then (some false, some httpFailure)
  else if f = failureGenericTimeoutError then (some false, some tcpIP)
  else if f = failureSSLInvalidHostname ∨ f = failureSSLInvalidCertificate
          ∨ f = failureSSLUnknownAuthority then (some false, some httpFailure)
  else (none, none)

/-- The tie-break override applied after classification: when a reason was
set, the chain has exactly one request, and the DNS is inconsistent, the
reason is overridden to `dns`. -/
def tieBreakOverride (tk : TestKeys) (p : Option Bool × Option String) :
    Option Bool × Option String :=
  if p.2 ≠ none ∧ tk.Requests.length = 1 ∧ tk.DNSConsistency = some DNSInconsistent
  then (p.1, some dns) else p

/-- The ordered rule chain of `Summarize`, producing the
(Accessible, BlockingReason) pair; each early `return` of the Go source
is a branch result here. -/
def SummarizeCore (tk : TestKeys) : Option Bool × Option String :=
  -- HTTPS-reachable shortcut.
  if httpsShortcutTaken tk then (some true, none)
  -- If we couldn't contact the control, we cannot do much more here.
  else if tk.ControlFailure ≠ none then (none, none)
  -- DNS NXDOMAIN with a consistent control: the site does not exist.
  else if tk.DNSExperimentFailure = some failureDNSNXDOMAINError
          ∧ tk.DNSConsistency = some DNSConsistent then (none, none)
  -- TCP connect total failure with measurable DNS consistency.
  else if tk.TCPConnectAttempts > 0 ∧ tk.TCPConnectSuccesses ≤ 0
          ∧ tk.DNSConsistency ≠ none then
    match tk.DNSConsistency with
    | some c =>
        if c = DNSConsistent then (some false, some tcpIP)
        else if c = DNSInconsistent then (some false, some dns)
        else (none, none)
    | none => (none, none)
  -- If the control failed for HTTP we cannot compare.
  else if tk.Control.HTTPRequest.Failure ≠ none then (none, none)
  else
    match tk.Requests.head? with
    -- No requests to examine.
    | none => (none, none)
    | some r0 =>
      match r0.Failure with
      -- First request failed: classify, then tie-break override.
      | some f => tieBreakOverride tk (classifyFirstFailure f)
      -- First request succeeded: content comparison.
      | none =>
        if tk.StatusCodeMatch = some true ∧ tk.BodyLengthMatch = some true then
          (some true, none)
        else if tk.StatusCodeMatch = some true ∧ tk.HeadersMatch = some true then
          (some true, none)
        else if tk.StatusCodeMatch = some true ∧ tk.TitleMatch = some true then
          (some true, none)
        else if tk.DNSConsistency = some DNSInconsistent then
          (some false, some dns)
        else (some false, some httpDiff)

/-- Summarize computes the summary from the TestKeys: the rule chain
produces Accessible and BlockingReason, and the deferred step sets
Blocking via DetermineBlocking. -/
def Summarize (tk : TestKeys) : Summary :=
  let core := SummarizeCore tk
  let pre : Summary :=
    { Accessible := core.1, BlockingReason := core.2, Blocking := BlockingValue.null }
  { pre with Blocking := DetermineBlocking pre }

theorem Summarize_Accessible (tk : TestKeys) :
    (Summarize tk).Accessible = (SummarizeCore tk).1 := rfl

theorem Summarize_BlockingReason (tk : TestKeys) :
    (Summarize tk).BlockingReason = (SummarizeCore tk).2 := rfl

theorem Summarize_Blocking (tk : TestKeys) :
    (Summarize tk).Blocking =
      DetermineBlocking
        { Accessible := (SummarizeCore tk).1,
          BlockingReason := (SummarizeCore tk).2,
          Blocking := BlockingValue.null } := rfl

/-- C1: if at least one HTTP request was recorded, the first request's
scheme is https, and its failure is absent, then Summarize returns
Accessible present and true, regardless of all other fields. -/
theorem https_shortcut_accessible (tk : TestKeys) (r : RequestEntry)
    (hhead : tk.Requests.head? = some r)
    (hfail : r.Failure = none)
    (hscheme : urlIsHTTPS r.Request.URL = true) :
    (Summarize tk).Accessible = some true := by
  have hshort : httpsShortcutTaken tk = true := by
    unfold httpsShortcutTaken
    rw [hhead]
    simp [hfail, hscheme]
  rw [Summarize_Accessible]
  unfold SummarizeCore
  rw [hshort]
  simp

/-- An evidence record whose only content is a successful https first
request, used to instantiate the https-shortcut theorem. -/
def tkHTTPSOnly : TestKeys :=
  { ControlFailure := none, DNSExperimentFailure := none, DNSConsistency := none,
    Control := ⟨⟨none⟩⟩,
    Requests := [⟨⟨"https://example.com/"⟩, none⟩],
    TCPConnectAttempts := 0, TCPConnectSuccesses := 0,
    StatusCodeMatch := none, BodyLengthMatch := none,
    HeadersMatch := none, TitleMatch := none }

/-- Witness for C1 at a concrete record. -/
theorem https_shortcut_accessible_witness :
    (Summarize tkHTTPSOnly).Accessible = some true :=
  https_shortcut_accessible tkHTTPSOnly ⟨⟨"https://example.com/"⟩, none⟩
    rfl rfl (by decide)

theorem classify_shape (f : String) :
    classifyFirstFailure f = (none, none) ∨
      ((classifyFirstFailure f).1 = some false ∧
        ((classifyFirstFailure f).2 = some dns ∨ (classifyFirstFailure f).2 = some tcpIP ∨
         (classifyFirstFailure f).2 = some httpFailure)) := by
  unfold classifyFirstFailure
  split_ifs <;> simp

theorem tieBreak_shape (tk : TestKeys) (p : Option Bool × Option String)
    (hp : p = (none, none) ∨
      (p.1 = some false ∧ (p.2 = some dns ∨ p.2 = some tcpIP ∨ p.2 = some httpFailure))) :
    tieBreakOverride tk p = (none, none) ∨
      ((tieBreakOverride tk p).1 = some false ∧
        ((tieBreakOverride tk p).2 = some dns ∨ (tieBreakOverride tk p).2 = some tcpIP ∨
         (tieBreakOverride tk p).2 = some httpFailure)) := by
  unfold tieBreakOverride
  rcases hp with h | ⟨h1, h2⟩
  · subst h; simp
  · split_ifs with hcond
    · exact Or.inr ⟨h1, Or.inl rfl⟩
    · exact Or.inr ⟨h1, h2⟩

theorem summarizeCore_cases (tk : TestKeys) :
    SummarizeCore tk = (some true, none) ∨ SummarizeCore tk = (none, none) ∨
      ((SummarizeCore tk).1 = some false ∧
        ((SummarizeCore tk).2 = some dns ∨ (SummarizeCore tk).2 = some tcpIP ∨
         (SummarizeCore tk).2 = some httpFailure ∨ (SummarizeCore tk).2 = some httpDiff)) := by
  unfold SummarizeCore
  split
  · exact Or.inl rfl
  split
  · exact Or.inr (Or.inl rfl)
  split
  · exact Or.inr (Or.inl rfl)
  split
  · split
    · split_ifs
      · exact Or.inr (Or.inr ⟨rfl, Or.inr (Or.inl rfl)⟩)
      · exact Or.inr (Or.inr ⟨rfl, Or.inl rfl⟩)
      · exact Or.inr (Or.inl rfl)
    · exact Or.inr (Or.inl rfl)
  split
  · exact Or.inr (Or.inl rfl)
  split
  · exact Or.inr (Or.inl rfl)
  split
  · rename_i f hfeq
    rcases tieBreak_shape tk (classifyFirstFailure f) (classify_shape f) with h | ⟨h1, h2⟩
    · exact Or.inr (Or.inl h)
    · refine Or.inr (Or.inr ⟨h1, ?_⟩)
      rcases h2 with h | h | h
      · exact Or.inl h
      · exact Or.inr (Or.inl h)
      · exact Or.inr (Or.inr (Or.inl h))
  split_ifs
  · exact Or.inl rfl
  · exact Or.inl rfl
  · exact Or.inl rfl
  · exact Or.inr (Or.inr ⟨rfl, Or.inl rfl⟩)
  · exact Or.inr (Or.inr ⟨rfl, Or.inr (Or.inr (Or.inr rfl))⟩)

/-- C2: the rendered Blocking value of every summary produced by Summarize
is the tri-state: the boolean false when Accessible is present and true,
null when Accessible is absent, and the BlockingReason string when
Accessible is present and false. -/
theorem blocking_tristate (tk : TestKeys) :
    ((Summarize tk).Accessible = some true →
        (Summarize tk).Blocking = BlockingValue.flag false) ∧
    ((Summarize tk).Accessible = none →
        (Summarize tk).Blocking = BlockingValue.null) ∧
    ((Summarize tk).Accessible = some false →
        ∃ r, (Summarize tk).BlockingReason = some r ∧
          (Summarize tk).Blocking = BlockingValue.reason r) := by
  rcases summarizeCore_cases tk with h | h | ⟨h1, h2⟩
  · refine ⟨fun _ => ?_, fun hc => ?_, fun hc => ?_⟩
    · rw [Summarize_Blocking, h]; rfl
    · rw [Summarize_Accessible, h] at hc; simp at hc
    · rw [Summarize_Accessible, h] at hc; simp at hc
  · refine ⟨fun hc => ?_, fun _ => ?_, fun hc => ?_⟩
    · rw [Summarize_Accessible, h] at hc; simp at hc
    · rw [Summarize_Blocking, h]; rfl
    · rw [Summarize_Accessible, h] at hc; simp at hc
  · obtain ⟨r, hr⟩ : ∃ r, (SummarizeCore tk).2 = some r := by
      rcases h2 with h | h | h | h <;> exact ⟨_, h⟩
    refine ⟨fun hc => ?_, fun hc => ?_, fun _ => ⟨r, ?_, ?_⟩⟩
    · rw [Summarize_Accessible, h1] at hc; simp at hc
    · rw [Summarize_Accessible, h1] at hc; simp at hc
    · rw [Summarize_BlockingReason, hr]
    · rw [Summarize_Blocking]
      simp [h1, hr, DetermineBlocking]

/-- An evidence record that reaches the http-diff default, used to
instantiate the tri-state and invariant theorems. -/
def tkHTTPDiff : TestKeys :=
  { ControlFailure := none, DNSExperimentFailure := none, DNSConsistency := none,
    Control := ⟨⟨none⟩⟩,
    Requests := [⟨⟨"http://example.com/"⟩, none⟩],
    TCPConnectAttempts := 0, TCPConnectSuccesses := 0,
    StatusCodeMatch := some false, BodyLengthMatch := none,
    HeadersMatch := none, TitleMatch := none }

/-- Witness for C2 at a concrete record. -/
theorem blocking_tristate_witness :
    ∃ r, (Summarize tkHTTPDiff).BlockingReason = some r ∧
      (Summarize tkHTTPDiff).Blocking = BlockingValue.reason r :=
  (blocking_tristate tkHTTPDiff).2.2 (by decide)

/-- C10: in every summary produced by Summarize, BlockingReason is present
iff Accessible is present and false; a present BlockingReason is one of
dns, tcp_ip, http-failure, http-diff; Blocking is a reason string exactly
when Accessible is false and null exactly when Accessible is absent. -/
theorem summary_invariant (tk : TestKeys) :
    ((Summarize tk).BlockingReason ≠ none ↔ (Summarize tk).Accessible = some false) ∧
    (∀ r, (Summarize tk).BlockingReason = some r →
        r = dns ∨ r = tcpIP ∨ r = httpFailure ∨ r = httpDiff) ∧
    ((∃ r, (Summarize tk).Blocking = BlockingValue.reason r) ↔
        (Summarize tk).Accessible = some false) ∧
    ((Summarize tk).Blocking = BlockingValue.null ↔ (Summarize tk).Accessible = none) := by
  rcases summarizeCore_cases tk with h | h | ⟨h1, h2⟩
  · rw [Summarize_Accessible, Summarize_BlockingReason, Summarize_Blocking, h]
    simp [DetermineBlocking]
  · rw [Summarize_Accessible, Summarize_BlockingReason, Summarize_Blocking, h]
    simp [DetermineBlocking]
  · obtain ⟨r, hr⟩ : ∃ r, (SummarizeCore tk).2 = some r := by
      rcases h2 with h | h | h | h <;> exact ⟨_, h⟩
    rw [Summarize_Accessible, Summarize_BlockingReason, Summarize_Blocking, h1, hr]
    simp only [DetermineBlocking]
    refine ⟨by simp, fun r' hr' => ?_, by simp, by simp⟩
    have : r' = r := by simpa using hr'.symm
    subst this
    rcases h2 with h | h | h | h <;> rw [hr] at h <;> simp at h <;> tauto

/-- Witness for C10 at a concrete record. -/
theorem summary_invariant_witness :
    httpDiff = dns ∨ httpDiff = tcpIP ∨ httpDiff = httpFailure ∨ httpDiff = httpDiff :=
  (summary_invariant tkHTTPDiff).2.1 httpDiff (by decide)

theorem tieBreak_fst (tk : TestKeys) (p : Option Bool × Option String) :
    (tieBreakOverride tk p).1 = p.1 := by
  unfold tieBreakOverride
  split_ifs <;> rfl

/-- C3: when no earlier rule fires and the TCP total-failure guard holds
with DNSConsistency present, Summarize branches on the consistency value
(Consistent gives tcp_ip, Inconsistent gives dns, each inaccessible) and
evaluation stops there: the result is exactly the branch output. -/
theorem tcp_total_failure_rule (tk : TestKeys) (c : String)
    (hshort : httpsShortcutTaken tk = false)
    (hcf : tk.ControlFailure = none)
    (hnx : ¬(tk.DNSExperimentFailure = some failureDNSNXDOMAINError
              ∧ tk.DNSConsistency = some DNSConsistent))
    (hatt : tk.TCPConnectAttempts > 0)
    (hsucc : tk.TCPConnectSuccesses ≤ 0)
    (hdc : tk.DNSConsistency = some c) :
    SummarizeCore tk =
      (if c = DNSConsistent then (some false, some tcpIP)
       else if c = DNSInconsistent then (some false, some dns)
       else (none, none)) ∧
    (c = DNSConsistent →
      (Summarize tk).Accessible = some false ∧
        (Summarize tk).BlockingReason = some tcpIP) ∧
    (c = DNSInconsistent →
      (Summarize tk).Accessible = some false ∧
        (Summarize tk).BlockingReason = some dns) := by
  have hcons : DNSConsistent ≠ DNSInconsistent := by decide
  have hcore : SummarizeCore tk =
      (if c = DNSConsistent then (some false, some tcpIP)
       else if c = DNSInconsistent then (some false, some dns)
       else (none, none)) := by
    unfold SummarizeCore
    rw [hshort, if_neg (by simp), if_neg (by simp [hcf]), if_neg hnx,
        if_pos ⟨hatt, hsucc, by simp [hdc]⟩, hdc]
  refine ⟨hcore, fun h1 => ?_, fun h2 => ?_⟩
  · rw [Summarize_Accessible, Summarize_BlockingReason, hcore, if_pos h1]
    exact ⟨rfl, rfl⟩
  · rw [Summarize_Accessible, Summarize_BlockingReason, hcore,
        if_neg (h2 ▸ hcons.symm), if_pos h2]
    exact ⟨rfl, rfl⟩

/-- An evidence record whose TCP connects all failed with a consistent
DNS, used to instantiate the TCP total-failure theorem. -/
def tkTCP : TestKeys :=
  { ControlFailure := none, DNSExperimentFailure := none,
    DNSConsistency := some DNSConsistent, Control := ⟨⟨none⟩⟩,
    Requests := [], TCPConnectAttempts := 3, TCPConnectSuccesses := 0,
    StatusCodeMatch := none, BodyLengthMatch := none,
    HeadersMatch := none, TitleMatch := none }

/-- Witness for C3 at a concrete record. -/
theorem tcp_total_failure_rule_witness :
    (Summarize tkTCP).Accessible = some false ∧
      (Summarize tkTCP).BlockingReason = some tcpIP :=
  (tcp_total_failure_rule tkTCP DNSConsistent (by decide) rfl (by decide)
    (by decide) (by decide) rfl).2.1 rfl

/-- C8: with the https shortcut not taken and ControlFailure absent, a DNS
experiment failure equal to dns_nxdomain_error together with a Consistent
DNSConsistency makes Summarize leave both outputs absent. -/
theorem nxdomain_consistent_absent (tk : TestKeys)
    (hshort : httpsShortcutTaken tk = false)
    (hcf : tk.ControlFailure = none)
    (hdns : tk.DNSExperimentFailure = some failureDNSNXDOMAINError)
    (hdc : tk.DNSConsistency = some DNSConsistent) :
    (Summarize tk).Accessible = none ∧ (Summarize tk).BlockingReason = none := by
  have hcore : SummarizeCore tk = (none, none) := by
    unfold SummarizeCore
    rw [hshort, if_neg (by simp), if_neg (by simp [hcf]), if_pos ⟨hdns, hdc⟩]
  rw [Summarize_Accessible, Summarize_BlockingReason, hcore]
  exact ⟨rfl, rfl⟩

/-- An evidence record whose DNS experiment got NXDOMAIN with a consistent
control, used to instantiate the NXDOMAIN theorem. -/
def tkNXDomain : TestKeys :=
  { ControlFailure := none,
    DNSExperimentFailure := some failureDNSNXDOMAINError,
    DNSConsistency := some DNSConsistent, Control := ⟨⟨none⟩⟩,
    Requests := [], TCPConnectAttempts := 0, TCPConnectSuccesses := 0,
    StatusCodeMatch := none, BodyLengthMatch := none,
    HeadersMatch := none, TitleMatch := none }

/-- Witness for C8 at a concrete record. -/
theorem nxdomain_consistent_absent_witness :
    (Summarize tkNXDomain).Accessible = none ∧
      (Summarize tkNXDomain).BlockingReason = none :=
  nxdomain_consistent_absent tkNXDomain (by decide) rfl rfl rfl

/-- An evidence record with a present ControlFailure and a successful
https first request: the https shortcut precedes the control check. -/
def tkControlDown : TestKeys :=
  { ControlFailure := some failureConnectionRefused,
    DNSExperimentFailure := none, DNSConsistency := none,
    Control := ⟨⟨none⟩⟩,
    Requests := [⟨⟨"https://example.com/"⟩, none⟩],
    TCPConnectAttempts := 0, TCPConnectSuccesses := 0,
    StatusCodeMatch := none, BodyLengthMatch := none,
    HeadersMatch := none, TitleMatch := none }

/-- C7 as stated is false on the code: a record with ControlFailure
present but a successful https first request takes the https shortcut,
which runs first, and gets Accessible = true rather than absent. -/
theorem control_failure_counterexample :
    tkControlDown.ControlFailure ≠ none ∧
      (Summarize tkControlDown).Accessible = some true := by decide

/-- C7 amended: for every record not taking the https shortcut, a present
ControlFailure makes Summarize leave both outputs absent. -/
theorem control_failure_absent (tk : TestKeys)
    (hshort : httpsShortcutTaken tk = false)
    (hcf : tk.ControlFailure ≠ none) :
    (Summarize tk).Accessible = none ∧ (Summarize tk).BlockingReason = none := by
  have hcore : SummarizeCore tk = (none, none) := by
    unfold SummarizeCore
    rw [hshort, if_neg (by simp), if_pos hcf]
  rw [Summarize_Accessible, Summarize_BlockingReason, hcore]
  exact ⟨rfl, rfl⟩

/-- An evidence record with a present ControlFailure and no requests. -/
def tkControlDownNoReq : TestKeys :=
  { ControlFailure := some failureConnectionRefused,
    DNSExperimentFailure := none, DNSConsistency := none,
    Control := ⟨⟨none⟩⟩, Requests := [],
    TCPConnectAttempts := 0, TCPConnectSuccesses := 0,
    StatusCodeMatch := none, BodyLengthMatch := none,
    HeadersMatch := none, TitleMatch := none }

/-- Witness for the amended C7 at a concrete record. -/
theorem control_failure_absent_witness :
    (Summarize tkControlDownNoReq).Accessible = none ∧
      (Summarize tkControlDownNoReq).BlockingReason = none :=
  control_failure_absent tkControlDownNoReq (by decide) (by decide)

theorem reach_first_failure (tk : TestKeys) (r0 : RequestEntry) (f : String)
    (hhead : tk.Requests.head? = some r0)
    (hfail : r0.Failure = some f)
    (hcf : tk.ControlFailure = none)
    (hnx : ¬(tk.DNSExperimentFailure = some failureDNSNXDOMAINError
              ∧ tk.DNSConsistency = some DNSConsistent))
    (htcp : ¬(tk.TCPConnectAttempts > 0 ∧ tk.TCPConnectSuccesses ≤ 0
              ∧ tk.DNSConsistency ≠ none))
    (hctrl : tk.Control.HTTPRequest.Failure = none) :
    SummarizeCore tk = tieBreakOverride tk (classifyFirstFailure f) := by
  have hshort : httpsShortcutTaken tk = false := by
    unfold httpsShortcutTaken
    rw [hhead]
    simp [hfail]
  unfold SummarizeCore
  rw [hshort, if_neg (by simp), if_neg (by simp [hcf]), if_neg hnx, if_neg htcp,
      if_neg (by simp [hctrl]), hhead]
  simp only [hfail]

/-- C4: a record reaching the first-request-failed rule runs the failure
code through the classification table (connection_refused to tcp_ip,
connection_reset to http-failure, dns_nxdomain_error to dns, eof_error to
http-failure, generic_timeout_error to tcp_ip, the three ssl codes to
http-failure, each inaccessible; an unclassified code leaves both outputs
absent), followed only by the tie-break override. -/
theorem first_request_failure_classification (tk : TestKeys) (r0 : RequestEntry) (f : String)
    (hhead : tk.Requests.head? = some r0)
    (hfail : r0.Failure = some f)
    (hcf : tk.ControlFailure = none)
    (hnx : ¬(tk.DNSExperimentFailure = some failureDNSNXDOMAINError
              ∧ tk.DNSConsistency = some DNSConsistent))
    (htcp : ¬(tk.TCPConnectAttempts > 0 ∧ tk.TCPConnectSuccesses ≤ 0
              ∧ tk.DNSConsistency ≠ none))
    (hctrl : tk.Control.HTTPRequest.Failure = none) :
    SummarizeCore tk = tieBreakOverride tk (classifyFirstFailure f) ∧
    ((classifyFirstFailure f).2 ≠ none → (Summarize tk).Accessible = some false) ∧
    (f ∉ [failureConnectionRefused, failureConnectionReset, failureDNSNXDOMAINError,
          failureEOFError, failureGenericTimeoutError, failureSSLInvalidHostname,
          failureSSLInvalidCertificate, failureSSLUnknownAuthority] →
      (Summarize tk).Accessible = none ∧ (Summarize tk).BlockingReason = none) ∧
    classifyFirstFailure failureConnectionRefused = (some false, some tcpIP) ∧
    classifyFirstFailure failureConnectionReset = (some false, some httpFailure) ∧
    classifyFirstFailure failureDNSNXDOMAINError = (some false, some dns) ∧
    classifyFirstFailure failureEOFError = (some false, some httpFailure) ∧
    classifyFirstFailure failureGenericTimeoutError = (some false, some tcpIP) ∧
    classifyFirstFailure failureSSLInvalidHostname = (some false, some httpFailure) ∧
    classifyFirstFailure failureSSLInvalidCertificate = (some false, some httpFailure) ∧
    classifyFirstFailure failureSSLUnknownAuthority = (some false, some httpFailure) := by
  have hcore := reach_first_failure tk r0 f hhead hfail hcf hnx htcp hctrl
  refine ⟨hcore, fun hr => ?_, fun hnotin => ?_, by decide, by decide, by decide,
    by decide, by decide, by decide, by decide, by decide⟩
  · rw [Summarize_Accessible, hcore, tieBreak_fst]
    rcases classify_shape f with h | ⟨h1, _⟩
    · rw [h] at hr
      exact absurd rfl hr
    · exact h1
  · have hcls : classifyFirstFailure f = (none, none) := by
      simp only [List.mem_cons, List.mem_singleton] at hnotin
      push_neg at hnotin
      obtain ⟨h1, h2, h3, h4, h5, h6, h7, h8⟩ := hnotin
      unfold classifyFirstFailure
      rw [if_neg h1, if_neg h2, if_neg h3, if_neg h4, if_neg h5,
          if_neg (by simp [h6, h7, h8])]
    rw [Summarize_Accessible, Summarize_BlockingReason, hcore, hcls]
    exact ⟨rfl, rfl⟩

/-- An evidence record whose only request failed with connection_refused. -/
def tkRefused : TestKeys :=
  { ControlFailure := none, DNSExperimentFailure := none, DNSConsistency := none,
    Control := ⟨⟨none⟩⟩,
    Requests := [⟨⟨"http://example.com/"⟩, some failureConnectionRefused⟩],
    TCPConnectAttempts := 0, TCPConnectSuccesses := 0,
    StatusCodeMatch := none, BodyLengthMatch := none,
    HeadersMatch := none, TitleMatch := none }

/-- Witness for C4 at a concrete record. -/
theorem first_request_failure_classification_witness :
    (Summarize tkRefused).Accessible = some false :=
  (first_request_failure_classification tkRefused
    ⟨⟨"http://example.com/"⟩, some failureConnectionRefused⟩
    failureConnectionRefused rfl rfl rfl (by decide) (by decide) rfl).2.1
    (by decide)

/-- C5: under the first-request-failed rule, when classification set a
reason, the request chain has length exactly 1, and DNSConsistency is
Inconsistent, the final reason is overridden to dns with Accessible still
false; in every other case the classified reason stands unchanged. -/
theorem tie_break_override_rule (tk : TestKeys) (r0 : RequestEntry) (f : String)
    (hhead : tk.Requests.head? = some r0)
    (hfail : r0.Failure = some f)
    (hcf : tk.ControlFailure = none)
    (hnx : ¬(tk.DNSExperimentFailure = some failureDNSNXDOMAINError
              ∧ tk.DNSConsistency = some DNSConsistent))
    (htcp : ¬(tk.TCPConnectAttempts > 0 ∧ tk.TCPConnectSuccesses ≤ 0
              ∧ tk.DNSConsistency ≠ none))
    (hctrl : tk.Control.HTTPRequest.Failure = none) :
    ((classifyFirstFailure f).2 ≠ none ∧ tk.Requests.length = 1 ∧
        tk.DNSConsistency = some DNSInconsistent →
      (Summarize tk).BlockingReason = some dns ∧
        (Summarize tk).Accessible = some false) ∧
    (¬((classifyFirstFailure f).2 ≠ none ∧ tk.Requests.length = 1 ∧
        tk.DNSConsistency = some DNSInconsistent) →
      (Summarize tk).BlockingReason = (classifyFirstFailure f).2) := by
  have hcore := reach_first_failure tk r0 f hhead hfail hcf hnx htcp hctrl
  constructor
  · rintro ⟨hr, hlen, hdc⟩
    constructor
    · rw [Summarize_BlockingReason, hcore]
      unfold tieBreakOverride
      rw [if_pos ⟨hr, hlen, hdc⟩]
    · rw [Summarize_Accessible, hcore, tieBreak_fst]
      rcases classify_shape f with h | ⟨h1, _⟩
      · rw [h] at hr
        exact absurd rfl hr
      · exact h1
  · intro hno
    rw [Summarize_BlockingReason, hcore]
    unfold tieBreakOverride
    rw [if_neg hno]

/-- An evidence record with a single refused request and an inconsistent
DNS, on which the tie-break override fires. -/
def tkOverride : TestKeys :=
  { ControlFailure := none, DNSExperimentFailure := none,
    DNSConsistency := some DNSInconsistent, Control := ⟨⟨none⟩⟩,
    Requests := [⟨⟨"http://example.com/"⟩, some failureConnectionRefused⟩],
    TCPConnectAttempts := 0, TCPConnectSuccesses := 0,
    StatusCodeMatch := none, BodyLengthMatch := none,
    HeadersMatch := none, TitleMatch := none }

/-- Witness for C5 at a concrete record. -/
theorem tie_break_override_rule_witness :
    (Summarize tkOverride).BlockingReason = some dns ∧
      (Summarize tkOverride).Accessible = some false :=
  (tie_break_override_rule tkOverride
    ⟨⟨"http://example.com/"⟩, some failureConnectionRefused⟩
    failureConnectionRefused rfl rfl rfl (by decide) (by decide) rfl).1
    ⟨by decide, rfl, rfl⟩

/-- C6: a record reaching the content-comparison stage is accessible with
no reason when StatusCodeMatch is true together with any of
BodyLengthMatch, HeadersMatch, TitleMatch; otherwise it is inaccessible,
with reason dns when DNSConsistency is Inconsistent and http-diff in every
other case. -/
theorem content_comparison_rule (tk : TestKeys) (r0 : RequestEntry)
    (hhead : tk.Requests.head? = some r0)
    (hfail : r0.Failure = none)
    (hshort : httpsShortcutTaken tk = false)
    (hcf : tk.ControlFailure = none)
    (hnx : ¬(tk.DNSExperimentFailure = some failureDNSNXDOMAINError
              ∧ tk.DNSConsistency = some DNSConsistent))
    (htcp : ¬(tk.TCPConnectAttempts > 0 ∧ tk.TCPConnectSuccesses ≤ 0
              ∧ tk.DNSConsistency ≠ none))
    (hctrl : tk.Control.HTTPRequest.Failure = none) :
    (tk.StatusCodeMatch = some true ∧ (tk.BodyLengthMatch = some true ∨
        tk.HeadersMatch = some true ∨ tk.TitleMatch = some true) →
      (Summarize tk).Accessible = some true ∧
        (Summarize tk).BlockingReason = none) ∧
    (¬(tk.StatusCodeMatch = some true ∧ (tk.BodyLengthMatch = some true ∨
        tk.HeadersMatch = some true ∨ tk.TitleMatch = some true)) →
      tk.DNSConsistency = some DNSInconsistent →
      (Summarize tk).Accessible = some false ∧
        (Summarize tk).BlockingReason = some dns) ∧
    (¬(tk.StatusCodeMatch = some true ∧ (tk.BodyLengthMatch = some true ∨
        tk.HeadersMatch = some true ∨ tk.TitleMatch = some true)) →
      tk.DNSConsistency ≠ some DNSInconsistent →
      (Summarize tk).Accessible = some false ∧
        (Summarize tk).BlockingReason = some httpDiff) := by
  have hcore : SummarizeCore tk =
      (if tk.StatusCodeMatch = some true ∧ tk.BodyLengthMatch = some true then
        ((some true : Option Bool), (none : Option String))
      else if tk.StatusCodeMatch = some true ∧ tk.HeadersMatch = some true then
        (some true, none)
      else if tk.StatusCodeMatch = some true ∧ tk.TitleMatch = some true then
        (some true, none)
      else if tk.DNSConsistency = some DNSInconsistent then
        (some false, some dns)
      else (some false, some httpDiff)) := by
    unfold SummarizeCore
    rw [hshort, if_neg (by simp), if_neg (by simp [hcf]), if_neg hnx, if_neg htcp,
        if_neg (by simp [hctrl]), hhead]
    simp only [hfail]
  refine ⟨fun hm => ?_, fun hm hdc => ?_, fun hm hdc => ?_⟩
  · rw [Summarize_Accessible, Summarize_BlockingReason, hcore]
    split_ifs <;> first | exact ⟨rfl, rfl⟩ | tauto
  · rw [Summarize_Accessible, Summarize_BlockingReason, hcore]
    split_ifs <;> first | exact ⟨rfl, rfl⟩ | tauto
  · rw [Summarize_Accessible, Summarize_BlockingReason, hcore]
    split_ifs <;> first | exact ⟨rfl, rfl⟩ | tauto

/-- An evidence record whose first request succeeded over http and whose
status code and body length match the control. -/
def tkContent : TestKeys :=
  { ControlFailure := none, DNSExperimentFailure := none, DNSConsistency := none,
    Control := ⟨⟨none⟩⟩,
    Requests := [⟨⟨"http://example.com/"⟩, none⟩],
    TCPConnectAttempts := 0, TCPConnectSuccesses := 0,
    StatusCodeMatch := some true, BodyLengthMatch := some true,
    HeadersMatch := none, TitleMatch := none }

/-- Witness for C6 at a concrete record. -/
theorem content_comparison_rule_witness :
    (Summarize tkContent).Accessible = some true ∧
      (Summarize tkContent).BlockingReason = none :=
  (content_comparison_rule tkContent ⟨⟨"http://example.com/"⟩, none⟩
    rfl rfl (by decide) rfl (by decide) (by decide) rfl).1
    ⟨rfl, Or.inl rfl⟩

/-- An evidence record with no requests, no control failure, but a total
TCP connect failure with a consistent DNS. -/
def tkNoRequestsTCP : TestKeys :=
  { ControlFailure := none, DNSExperimentFailure := none,
    DNSConsistency := some DNSConsistent, Control := ⟨⟨none⟩⟩,
    Requests := [], TCPConnectAttempts := 3, TCPConnectSuccesses := 0,
    StatusCodeMatch := none, BodyLengthMatch := none,
    HeadersMatch := none, TitleMatch := none }

/-- C9's particular case as stated is false on the code: the TCP
total-failure rule precedes the no-requests rule, so a record with zero
requests and no control failure can still get a verdict. -/
theorem no_requests_counterexample :
    tkNoRequestsTCP.Requests = [] ∧ tkNoRequestsTCP.ControlFailure = none ∧
      (Summarize tkNoRequestsTCP).Accessible = some false ∧
      (Summarize tkNoRequestsTCP).BlockingReason = some tcpIP := by decide

/-- C9 amended: Summarize is total and, for every record with zero
requests, no control failure, and the TCP total-failure rule not deciding
(attempts not positive, a success, or DNSConsistency neither Consistent
nor Inconsistent), both outputs are absent; in particular the fully-empty
record yields both absent. -/
theorem no_requests_absent (tk : TestKeys)
    (hreq : tk.Requests = [])
    (hcf : tk.ControlFailure = none)
    (htcp : ¬(tk.TCPConnectAttempts > 0 ∧ tk.TCPConnectSuccesses ≤ 0 ∧
        (tk.DNSConsistency = some DNSConsistent ∨
         tk.DNSConsistency = some DNSInconsistent))) :
    (Summarize tk).Accessible = none ∧ (Summarize tk).BlockingReason = none := by
  have hshort : httpsShortcutTaken tk = false := by
    unfold httpsShortcutTaken
    rw [hreq]
    rfl
  have hcore : SummarizeCore tk = (none, none) := by
    unfold SummarizeCore
    rw [hshort, if_neg (by simp), if_neg (by simp [hcf])]
    by_cases h1 : tk.DNSExperimentFailure = some failureDNSNXDOMAINError
        ∧ tk.DNSConsistency = some DNSConsistent
    · rw [if_pos h1]
    · rw [if_neg h1]
      by_cases h2 : tk.TCPConnectAttempts > 0 ∧ tk.TCPConnectSuccesses ≤ 0
          ∧ tk.DNSConsistency ≠ none
      · rw [if_pos h2]
        obtain ⟨hatt, hsucc, hne⟩ := h2
        cases hdc : tk.DNSConsistency with
        | none => exact absurd hdc hne
        | some c =>
          have hc1 : ¬(c = DNSConsistent) := fun h =>
            htcp ⟨hatt, hsucc, Or.inl (by rw [hdc, h])⟩
          have hc2 : ¬(c = DNSInconsistent) := fun h =>
            htcp ⟨hatt, hsucc, Or.inr (by rw [hdc, h])⟩
          simp only [if_neg hc1, if_neg hc2]
      · rw [if_neg h2]
        by_cases h3 : tk.Control.HTTPRequest.Failure ≠ none
        · rw [if_pos h3]
        · rw [if_neg h3, hreq]
          rfl
  rw [Summarize_Accessible, Summarize_BlockingReason, hcore]
  exact ⟨rfl, rfl⟩

/-- The fully-empty evidence record: every optional field absent, both
counters zero, no requests. -/
def tkEmpty : TestKeys :=
  { ControlFailure := none, DNSExperimentFailure := none, DNSConsistency := none,
    Control := ⟨⟨none⟩⟩, Requests := [],
    TCPConnectAttempts := 0, TCPConnectSuccesses := 0,
    StatusCodeMatch := none, BodyLengthMatch := none,
    HeadersMatch := none, TitleMatch := none }

/-- Witness for the amended C9 at the fully-empty record. -/
theorem no_requests_absent_witness :
    (Summarize tkEmpty).Accessible = none ∧
      (Summarize tkEmpty).BlockingReason = none :=
  no_requests_absent tkEmpty rfl rfl (by decide)

end WebConnectivity
